import Mathlib

/-
Verification development for the `light` spectral path tracer (Rust).

Modelling conventions
  * IEEE scalars (f32 in algebra.rs / light.rs / render.rs / spectrum.rs,
    f64 in shape.rs / camera.rs) are modelled as exact rationals (ℚ).
    Where a claim depends on a value being computed without rounding, the
    theorem carries an explicit exactness hypothesis.
  * `f32::sqrt` / `f64::sqrt` are modelled by `fsqrt` below (an integer
    Newton iteration applied to numerator and denominator); it agrees with
    the mathematical square root exactly on the perfect squares at which
    the concrete claims evaluate it, and is nonnegative everywhere, like
    the float function on its domain.  Theorems that need `fsqrt` to be an
    exact square root at a particular value state that as a hypothesis.
  * Transcendental functions (tan, cos, sin) and the glm rotation routine
    have no exact rational counterpart; functions that call them take them
    as explicit parameters and every theorem quantifies over them (none of
    the claimed properties depends on their values).
  * Rust `Option` is Lean `Option`; `f32` division by zero (inf/NaN in
    Rust) is rational division by zero (0 in Lean); no claim's statement
    exercises that corner except where noted.
  * The RNG handle (`rand::ThreadRng`) is modelled as a pre-drawn stream
    of rationals in `[0,1]`: a `List ℚ` from which each `rng.gen()` call
    pops the head (an exhausted stream yields 0; the concrete instances
    below never exhaust the stream on the executed path).
  * Rust `u32` values (pixel indices, resolution) are modelled as ℕ; the
    resolution-area product in `Camera::config` is taken modulo 2^32,
    matching the release-mode wrapping multiply of the source (a debug
    build would panic on the overflow).
  * The repository mixes two generations of some files.  Both copies of
    the sphere code are embedded (`GSphere` from geometry.rs, `SSphere`
    from shape.rs), and the deviant `Add`/`Sub` of vec3.rs are embedded
    as `v3add`/`v3sub` next to the componentwise `Vec3` of algebra.rs.
  * `object.rs` and `algebra::linear_interpolation` are referenced by the
    sources but absent from the source tree; they are modelled from the
    spec where needed, and each such definition is marked
    `Modelled from the spec` in its doc comment.

The arithmetic kernel of `Rat` in the ambient library is marked
irreducible for elaboration; concrete evaluation of the embedded program
needs it to reduce, so it is restored to the default transparency here
(this does not affect soundness: kernel-level checking never consults
reducibility attributes).
-/

attribute [local semireducible] Rat.add Rat.mul Rat.inv Rat.sub

set_option maxRecDepth 100000

/-- Fuel-driven Newton iteration for the floor square root of a natural
number (auxiliary for `fsqrt`; structural recursion so that concrete
instances evaluate inside the kernel). -/
def nsqrtGo : ℕ → ℕ → ℕ → ℕ
  | 0, _, g => g
  | fuel + 1, n, g =>
    let next := (g + n / g) / 2
    if next < g then nsqrtGo fuel n next else g

/-- Floor square root of a natural number (auxiliary for `fsqrt`). -/
def nsqrt (n : ℕ) : ℕ := if n ≤ 1 then n else nsqrtGo n n (n / 2 + 1)

/-- Model of `f32::sqrt` / `f64::sqrt` on nonnegative inputs: the floor
square roots of numerator and denominator.  Exact on perfect squares
(which is where the claims below evaluate it) and nonnegative everywhere;
theorems that need exactness at some value carry it as a hypothesis. -/
def fsqrt (q : ℚ) : ℚ := (nsqrt q.num.toNat : ℚ) / (nsqrt q.den : ℚ)

/-- The exact value of the `f64` constant `std::f64::consts::PI`. -/
def pi64 : ℚ := 884279719003555 / 281474976710656

/-- The exact value of the `f32` constant `std::f32::consts::PI`. -/
def pi32 : ℚ := 13176795 / 4194304

/-- Three-dimensional vector over the scalar model, as in `algebra.rs` (`Vec3`, with
componentwise `Add`/`Sub`).  The older `vec3.rs` copy of the type deviates
in its `Add`/`Sub` impls; those are embedded separately as
`v3add`/`v3sub`. -/
structure Vec3 where
  x : ℚ
  y : ℚ
  z : ℚ
deriving DecidableEq, Repr

instance : Add Vec3 := ⟨fun a b => ⟨a.x + b.x, a.y + b.y, a.z + b.z⟩⟩

instance : Sub Vec3 := ⟨fun a b => ⟨a.x - b.x, a.y - b.y, a.z - b.z⟩⟩

instance : Neg Vec3 := ⟨fun a => ⟨-a.x, -a.y, -a.z⟩⟩

instance : HMul ℚ Vec3 Vec3 := ⟨fun s v => ⟨s * v.x, s * v.y, s * v.z⟩⟩

/-- Embeds `Vec3::norm2` (`x.powf(2.0) + y.powf(2.0) + z.powf(2.0)`). -/
def Vec3.norm2 (v : Vec3) : ℚ := v.x * v.x + v.y * v.y + v.z * v.z

/-- Embeds `Vec3::norm`. -/
def Vec3.norm (v : Vec3) : ℚ := fsqrt v.norm2

/-- Embeds `Vec3::normal` (returns a new normalized vector; each component
divided by the norm). -/
def Vec3.normal (v : Vec3) : Vec3 := ⟨v.x / v.norm, v.y / v.norm, v.z / v.norm⟩

/-- Embeds `Vec3::dot`. -/
def Vec3.dot (v w : Vec3) : ℚ := v.x * w.x + v.y * w.y + v.z * w.z

/-- Embeds `Vec3::cross`. -/
def Vec3.cross (v w : Vec3) : Vec3 :=
  ⟨v.y * w.z - v.z * w.y, v.z * w.x - v.x * w.z, v.x * w.y - v.y * w.x⟩

/-- Embeds `vec3.rs`: `impl Add for Vec3`.  The z component is computed from
`self.x` exactly as in the source (`z: self.x + rhs.z`). -/
def v3add (a b : Vec3) : Vec3 := ⟨a.x + b.x, a.y + b.y, a.x + b.z⟩

/-- Embeds `vec3.rs`: `impl Sub for Vec3`.  The z component is computed from
`self.x` exactly as in the source (`z: self.x - rhs.z`). -/
def v3sub (a b : Vec3) : Vec3 := ⟨a.x - b.x, a.y - b.y, a.x - b.z⟩

/-- Embeds `algebra.rs`: `solve_deg2_eq`. -/
def solve_deg2_eq (a b c : ℚ) : Option (ℚ × ℚ) :=
  if a ≠ 0 then
    let discriminant := b * b - 4 * a * c
    if 0 < discriminant then
      let sqrt_discriminant := fsqrt discriminant
      let x1 := (-b + sqrt_discriminant) / (2 * a)
      let x2 := (-b - sqrt_discriminant) / (2 * a)
      if x1 ≤ x2 then some (x1, x2) else some (x2, x1)
    else if discriminant = 0 then
      some (-b / (2 * a), -b / (2 * a))
    else
      none
  else
    if b ≠ 0 then some (-c / b, -c / b) else none

/-- Embeds `shape.rs`: `closest_facing_solution` (the `assert!(t1 <= t2)` is a
runtime check, carried as a hypothesis by the theorems that need it). -/
def closest_facing_solution (t1 t2 : ℚ) : Option ℚ :=
  if 0 ≤ t1 then some t1
  else if 0 ≤ t2 then some t2
  else none

/-- Embeds `geometry.rs`: `closest_sol`. -/
def closest_sol (x1 x2 : ℚ) : Option ℚ :=
  if x1 < 0 then
    if x2 < 0 then none else some x2
  else
    some x1

/-- Embeds `light.rs`: `Ray` (origin, direction, wavelength). -/
structure Ray where
  origin : Vec3
  direction : Vec3
  wavelength : ℚ
deriving DecidableEq, Repr

/-- Embeds `Ray::new` — normalizes the direction before storing it. -/
def Ray.new (origin direction : Vec3) (wavelength : ℚ) : Ray :=
  ⟨origin, direction.normal, wavelength⟩

/-- Embeds `Ray::point_at`. -/
def Ray.point_at (r : Ray) (t : ℚ) : Vec3 := r.origin + t * r.direction

/-- Embeds `geometry.rs`: `Sphere` (center, radius), the f32 variant used through
the `Intersectable` trait by the renderer. -/
structure GSphere where
  center : Vec3
  radius : ℚ
deriving DecidableEq, Repr

/-- Embeds `geometry.rs`: `impl Intersectable for Sphere`, `intersect`
(`a = d.norm().powf(2.0)` etc., then `solve_deg2_eq`, then
`closest_sol`). -/
def GSphere.intersect (s : GSphere) (r : Ray) : Option ℚ :=
  let oc := r.origin - s.center
  let d := r.direction
  let a := d.norm * d.norm
  let b := 2 * oc.dot d
  let c := oc.norm * oc.norm - s.radius * s.radius
  match solve_deg2_eq a b c with
  | none => none
  | some (x1, x2) => closest_sol x1 x2

/-- Embeds `geometry.rs`: `Sphere::hit_normal` — the source comment reads
`-(d*n)n / |(d*n)n|` but the code computes `(d·n)n` normalized, with no
minus sign. -/
def GSphere.hit_normal (s : GSphere) (intersection direction : Vec3) : Vec3 :=
  let surf_normal := s.center - intersection
  ((direction.dot surf_normal) * surf_normal).normal

/-- Embeds `shape.rs`: `HitRecord` (the `f64::INFINITY` default sentinel is not
reachable from the embedded operations and is not modelled). -/
structure HitRecord where
  ray_t : ℚ
  point : Vec3
  normal : Vec3
deriving DecidableEq, Repr

/-- Embeds `shape.rs`: `Sphere` (the f64 variant returning a `HitRecord`). -/
structure SSphere where
  center : Vec3
  radius : ℚ
deriving DecidableEq, Repr

/-- Embeds `shape.rs`: `Sphere::normal` — same formula as
`geometry.rs::Sphere::hit_normal` (no minus sign, despite the comment). -/
def SSphere.normal (s : SSphere) (intersection direction : Vec3) : Vec3 :=
  let surf_normal := s.center - intersection
  ((direction.dot surf_normal) * surf_normal).normal

/-- Embeds `shape.rs`: `impl Shape for Sphere`, `intersect`. -/
def SSphere.intersect (s : SSphere) (r : Ray) : Option HitRecord :=
  let oc := r.origin - s.center
  let d := r.direction
  let a := d.norm * d.norm
  let b := 2 * oc.dot d
  let c := oc.norm * oc.norm - s.radius * s.radius
  match solve_deg2_eq a b c with
  | none => none
  | some (t1, t2) =>
    match closest_facing_solution t1 t2 with
    | none => none
    | some t =>
      let point := r.point_at t
      some { ray_t := t, point := point, normal := s.normal point d }

/-- Modelled from the spec: `algebra::linear_interpolation` is called by
`Spectrum::interpolate_at` but is absent from the source tree; spec §4.5
says to "linearly interpolate power between the two bracketing
samples". -/
def linear_interpolation (x0 x1 y0 y1 x : ℚ) : ℚ :=
  y0 + (y1 - y0) * (x - x0) / (x1 - x0)

/-- Embeds `spectrum.rs`: `Spectrum` (wavelength grid, per-index powers, and the
stored sample count). -/
structure Spectrum where
  wavelengths : List ℚ
  powers : List ℚ
  size : ℕ
deriving DecidableEq, Repr

/-- Embeds `Spectrum::new` — powers zero-initialized, `size` the grid length. -/
def Spectrum.new (wl : List ℚ) : Spectrum :=
  ⟨wl, List.replicate wl.length 0, wl.length⟩

/-- Embeds `spectrum.rs`: `Spectrum::find_wavelength_index`.  The scan returns
the first index whose stored wavelength is strictly below the query
(`if wavelength > *w return Some(index)`). -/
def find_wavelength_index (s : Spectrum) (wavelength : ℚ) : Option ℕ :=
  if s.wavelengths.length < 2 then none
  else
    let first := s.wavelengths.headD 0
    let last := s.wavelengths.getLastD 0
    if wavelength < first ∨ last < wavelength then none
    else s.wavelengths.findIdx? (fun w => decide (w < wavelength))

/-- Embeds `spectrum.rs`: `Spectrum::interpolate_at`.  In the single-sample
branch the source returns `Some(self.wavelengths[0])` (the wavelength
itself). -/
def interpolate_at (s : Spectrum) (wavelength : ℚ) : Option ℚ :=
  if s.size = 1 ∧ wavelength = s.wavelengths.getD 0 0 then
    some (s.wavelengths.getD 0 0)
  else if 1 < s.size then
    match find_wavelength_index s wavelength with
    | none => none
    | some index =>
      some (linear_interpolation (s.wavelengths.getD index 0)
        (s.wavelengths.getD (index + 1) 0)
        (s.powers.getD index 0) (s.powers.getD (index + 1) 0) wavelength)
  else none

/-- Embeds `material.rs`: `MaterialProperties` (field spelling as in the
source). -/
structure MaterialProperties where
  emission : Option Spectrum
  absorption : Option Spectrum
  transmitance : ℚ
  roughness : ℚ
  refraction_index : ℚ
deriving DecidableEq, Repr

/-- Modelled from the spec: `object.rs` (the `MaterialObject` trait and
`Object` type used by `render.rs` and `scene.rs`) is absent from the
source tree.  Spec §3 defines an Object as a (Shape, MaterialProperties)
pair; the shape side is the geometry.rs sphere, whose `intersect` and
`hit_normal` are in the source. -/
structure MaterialObject where
  shape : GSphere
  material : MaterialProperties
deriving DecidableEq, Repr

/-- Modelled from the spec: `MaterialObject::intersect` delegates to the
shape (geometry.rs `Intersectable::intersect`). -/
def MaterialObject.intersect (o : MaterialObject) (r : Ray) : Option ℚ :=
  o.shape.intersect r

/-- Modelled from the spec: `MaterialObject::hit_normal` delegates to the
shape (geometry.rs `Intersectable::hit_normal`). -/
def MaterialObject.hit_normal (o : MaterialObject) (intersection direction : Vec3) : Vec3 :=
  o.shape.hit_normal intersection direction

/-- Embeds `scene.rs`: `Scene` (the `background_color` field comes from the
absent color.rs and is not consumed by any embedded operation, so it is
omitted). -/
structure Scene where
  objects : List MaterialObject
deriving DecidableEq, Repr

/-- The RNG stream model: pre-drawn uniform samples. -/
abbrev Rng := List ℚ

/-- One `rng.gen::<f32>()` draw: pop the head of the stream. -/
def rngGen : Rng → ℚ × Rng
  | [] => (0, [])
  | q :: qs => (q, qs)

/-- Models of the transcendental f32 functions used by
`render.rs::sample_hemisphere`; the embedded code is parametric in
them. -/
structure FloatOps where
  cos : ℚ → ℚ
  sin : ℚ → ℚ

/-- Embeds `render.rs`: `RayExtinction`. -/
inductive RayExtinction where
  | Fix (max_rays : ℕ)
  | HalfLife (lambda : ℕ)
deriving DecidableEq, Repr

/-- Embeds `render.rs`: `PathTracer` state. -/
structure PathTracer where
  samples_per_pixel : ℕ
  ray_extinction : RayExtinction
  propagation_probability : ℚ
deriving DecidableEq, Repr

/-- Embeds `render.rs`: `PathTracer::should_extinguish` (`Fix`: `counter >
max_rays`; `HalfLife`: draw `q`, extinguish when `propagation_probability
< q`). -/
def should_extinguish (pt : PathTracer) (counter : ℕ) (rng : Rng) : Bool × Rng :=
  match pt.ray_extinction with
  | RayExtinction.Fix max_rays => (decide (max_rays < counter), rng)
  | RayExtinction.HalfLife _ =>
    let (q, rng1) := rngGen rng
    (decide (pt.propagation_probability < q), rng1)

/-- Embeds `render.rs`: `PathTracer::sample_hemisphere` (draw order: `phi` from
the first sample, `r` from the second, exactly as in the source). -/
def sample_hemisphere (F : FloatOps) (normal : Vec3) (rng : Rng) : Vec3 × Rng :=
  let (u1, rng1) := rngGen rng
  let phi := 2 * pi32 * u1
  let (r, rng2) := rngGen rng1
  let sqrt_r := fsqrt r
  let w := normal.normal
  let rand_v :=
    if 0 < (w.cross ⟨0, 0, 1⟩).norm then w.cross ⟨0, 0, 1⟩ else (⟨1, 0, 0⟩ : Vec3)
  let u := w.cross rand_v
  let v := w.cross u
  ((sqrt_r * F.cos phi) * u + (sqrt_r * F.sin phi) * v + fsqrt (1 - r) * w, rng2)

/-- Embeds `render.rs`: `PathTracer::calculate_next_ray`. -/
def calculate_next_ray (F : FloatOps) (intersection : Vec3) (incident_ray : Ray)
    (obj : MaterialObject) (rng : Rng) : Ray × Rng :=
  let normal := obj.hit_normal intersection incident_ray.direction
  let (sample_direction, rng1) := sample_hemisphere F normal rng
  (Ray.new intersection sample_direction incident_ray.wavelength, rng1)

/-- Embeds `render.rs`: `PathTracer::intersect_ray` — gather every object's hit,
sort by `t` (`sort_unstable_by`), take the first.  Tie order between
equal `t` values is unspecified by the unstable sort; the model keeps the
earliest minimal entry, which coincides whenever the minimal `t` is
unique (in particular on single-object scenes). -/
def intersect_ray (ray : Ray) (scene : Scene) : Option (Vec3 × MaterialObject) :=
  let intersections :=
    scene.objects.filterMap (fun obj => (obj.intersect ray).map (fun t => (t, obj)))
  match intersections with
  | [] => none
  | first :: rest =>
    let best := rest.foldl (fun best cur => if cur.1 < best.1 then cur else best) first
    some (ray.point_at best.1, best.2)

/-- The `let e = ...` binding of `propagate_ray`: emission spectrum
interpolated at the wavelength, `unwrap_or(0.0)`, or `0.0` when no
emission spectrum is defined. -/
def emitted_power (m : MaterialProperties) (wavelength : ℚ) : ℚ :=
  match m.emission with
  | some spd => (interpolate_at spd wavelength).getD 0
  | none => 0

/-- The `let t = ...` binding of `propagate_ray`: absorption spectrum
interpolated at the wavelength, `unwrap_or(1.0)`, or `0.0` when no
absorption spectrum is defined (note the two different fallbacks in the
source). -/
def transmittance (m : MaterialProperties) (wavelength : ℚ) : ℚ :=
  match m.absorption with
  | some spd => (interpolate_at spd wavelength).getD 1
  | none => 0

/-- Embeds `render.rs`: `PathTracer::propagate_ray`.  The Rust recursion is
bounded only by the extinction policy; the embedding adds a fuel
parameter (first argument) that dominates the recursion depth, and
returns the remaining RNG stream next to the power.  Fuel 0 returns 0
(an artifact never reached by the theorems, which use positive fuel and
paths whose extinction occurs before the fuel runs out). -/
def propagate_ray (F : FloatOps) (pt : PathTracer) :
    ℕ → Ray → Scene → ℕ → Rng → ℚ × Rng
  | 0, _, _, _, rng => (0, rng)
  | fuel + 1, ray, scene, counter, rng =>
    let er := should_extinguish pt counter rng
    if er.1 then (0, er.2)
    else
      match intersect_ray ray scene with
      | none => (0, er.2)
      | some (point, obj) =>
        let e := emitted_power obj.material ray.wavelength
        let t := transmittance obj.material ray.wavelength
        if t ≤ 0 then (e, er.2)
        else
          let nr := calculate_next_ray F point ray obj er.2
          let rest := propagate_ray F pt fuel nr.1 scene (counter + 1) nr.2
          (e + t * rest.1, rest.2)

/-- Follows the claim's words (C4), for comparison with the source
function: identical to `propagate_ray` except that the transmittance
fallback when no absorption spectrum is defined is `1.0` ("fully
transmissive"), as the claim asserts of the code. -/
def claimed_transmittance (m : MaterialProperties) (wavelength : ℚ) : ℚ :=
  match m.absorption with
  | some spd => (interpolate_at spd wavelength).getD 1
  | none => 1

/-- Follows the claim's words (C4): `propagate_ray` with the
transmittance fallback the claim describes (`claimed_transmittance`). -/
def propagate_ray_claimed (F : FloatOps) (pt : PathTracer) :
    ℕ → Ray → Scene → ℕ → Rng → ℚ × Rng
  | 0, _, _, _, rng => (0, rng)
  | fuel + 1, ray, scene, counter, rng =>
    let er := should_extinguish pt counter rng
    if er.1 then (0, er.2)
    else
      match intersect_ray ray scene with
      | none => (0, er.2)
      | some (point, obj) =>
        let e := emitted_power obj.material ray.wavelength
        let t := claimed_transmittance obj.material ray.wavelength
        if t ≤ 0 then (e, er.2)
        else
          let nr := calculate_next_ray F point ray obj er.2
          let rest := propagate_ray_claimed F pt fuel nr.1 scene (counter + 1) nr.2
          (e + t * rest.1, rest.2)

/-- Embeds `camera.rs`: `FieldOfView`. -/
inductive FieldOfView where
  | Horizontal (angle : ℚ)
  | Vertical (angle : ℚ)
deriving DecidableEq, Repr

/-- Embeds `camera.rs`: `FocusMode` (per the source comment, `aperture` is the
aperture radius in meters). -/
inductive FocusMode where
  | FocalPlane (focal_distance aperture : ℚ)
  | PinHole
deriving DecidableEq, Repr

/-- Embeds `camera.rs`: `CameraConfig`. -/
structure CameraConfig where
  position : Vec3
  direction : Vec3
  resolution : ℕ × ℕ
  rotation : ℚ
  fov : FieldOfView
  focus_mode : FocusMode
deriving DecidableEq, Repr

/-- Embeds `camera.rs`: `Camera` with its `CoordinateSystem` flattened in
(origin, u, v, w) plus the derived state. -/
structure Camera where
  origin : Vec3
  u : Vec3
  v : Vec3
  w : Vec3
  rotation : ℚ
  resolution : ℕ × ℕ
  fov : FieldOfView
  focus_mode : FocusMode
  distance_to_plane : ℚ
  first_pixel_pos : Vec3
  pixel_width : ℚ
  pixel_height : ℚ
deriving DecidableEq, Repr

/-- Embeds `camera.rs`: the `WORLD_UP` constant. -/
def WORLD_UP : Vec3 := ⟨0, 1, 0⟩

/-- The angle stored in a `FieldOfView` value. -/
def fov_angle : FieldOfView → ℚ
  | FieldOfView.Horizontal a => a
  | FieldOfView.Vertical a => a

/-- The abs-folding the source applies to the field of view before
storing it (`alpha = alpha.abs()` in both match arms). -/
def fov_abs : FieldOfView → FieldOfView
  | FieldOfView.Horizontal a => FieldOfView.Horizontal |a|
  | FieldOfView.Vertical a => FieldOfView.Vertical |a|

/-- Embeds `camera.rs`: `Camera::config`, fresh-construction view.  `tan`
models `f64::tan` and `rotv` models `glm::rotate_vec3` (arguments in
source order: vector, angle, axis); the validation logic and all derived
state are independent of their values.  The resolution-area check
multiplies two `u32` values, which wraps modulo `2^32` in release builds
(a debug build panics on the overflow); the wrapped product is what the
model checks.  Both FOV arms of the source perform the identical
`alpha.abs()` check against `(0, PI]`, folded here into one test.  This
view returns the fully configured camera on success and `none` on any
validation failure, matching `Camera::new` (which starts from a default
camera and panics on `Err`, so no camera value escapes a failed fresh
configuration); the source method actually mutates `self` field by field
and can return `Err` part-way through — that in-place behavior is
embedded separately as `Camera.config_mut` below, which agrees with this
view on the success flag. -/
def Camera.config (tan : ℚ → ℚ) (rotv : Vec3 → ℚ → Vec3 → Vec3)
    (cfg : CameraConfig) : Option Camera :=
  if cfg.resolution.1 * cfg.resolution.2 % 2 ^ 32 = 0 then none
  else if |fov_angle cfg.fov| ≤ 0 ∨ pi64 < |fov_angle cfg.fov| then none
  else
    let fov := fov_abs cfg.fov
    let w := cfg.direction.normal
    let u0 := (w.cross WORLD_UP).normal
    let v0 := (u0.cross w).normal
    let u := if cfg.rotation ≠ 0 then (rotv u0 cfg.rotation w).normal else u0
    let v := if cfg.rotation ≠ 0 then (rotv v0 cfg.rotation w).normal else v0
    let aspect : ℚ := (cfg.resolution.1 : ℚ) / (cfg.resolution.2 : ℚ)
    match cfg.focus_mode with
    | FocusMode.FocalPlane focal_distance aperture =>
      if focal_distance < 0 then none
      else if aperture < 0 then none
      else
        let distance_to_plane := focal_distance
        let sensor :=
          match fov with
          | FieldOfView.Horizontal alpha =>
            let sensor_width := 2 * distance_to_plane * tan (alpha / 2)
            (sensor_width, sensor_width / aspect)
          | FieldOfView.Vertical alpha =>
            let sensor_height := 2 * distance_to_plane * tan (alpha / 2)
            (sensor_height * aspect, sensor_height)
        let pixel_width := sensor.1 / (cfg.resolution.1 : ℚ)
        let pixel_height := sensor.2 / (cfg.resolution.2 : ℚ)
        some
          { origin := cfg.position, u := u, v := v, w := w,
            rotation := cfg.rotation, resolution := cfg.resolution,
            fov := fov, focus_mode := cfg.focus_mode,
            distance_to_plane := distance_to_plane,
            first_pixel_pos := cfg.position + distance_to_plane * w
              - (sensor.1 / 2 - pixel_width / 2) * u
              + (sensor.2 / 2 - pixel_height / 2) * v,
            pixel_width := pixel_width, pixel_height := pixel_height }
    | FocusMode.PinHole =>
      let sensor_height : ℚ := 1
      let sensor_width := sensor_height * aspect
      let distance_to_plane :=
        match fov with
        | FieldOfView.Horizontal alpha => sensor_width / (2 * tan (alpha / 2))
        | FieldOfView.Vertical alpha => sensor_height / (2 * tan (alpha / 2))
      let pixel_width := sensor_width / (cfg.resolution.1 : ℚ)
      let pixel_height := sensor_height / (cfg.resolution.2 : ℚ)
      some
        { origin := cfg.position, u := u, v := v, w := w,
          rotation := cfg.rotation, resolution := cfg.resolution,
          fov := fov, focus_mode := cfg.focus_mode,
          distance_to_plane := distance_to_plane,
          first_pixel_pos := cfg.position + distance_to_plane * w
            - (sensor_width / 2 - pixel_width / 2) * u
            + (sensor_height / 2 - pixel_height / 2) * v,
          pixel_width := pixel_width, pixel_height := pixel_height }

/-- Embeds `camera.rs`: `Camera::config`, in-place view
(`fn config(&mut self, ...) -> Result<(), &str>`).  Returns the success
flag next to the state `self` is left in, mirroring the source's
mutation order at each return point: the resolution and FOV failures
return before any field is written, so the state is untouched; the
FocalPlane focal-distance/aperture failures return after `fov`,
`resolution`, `rotation` and the coordinate system have already been
overwritten but before `focus_mode`, `distance_to_plane`, the pixel
sizes and `first_pixel_pos` are updated, leaving a mixed state.  The
success flag agrees with `Camera.config` (`isSome`), and the success
state is the same camera. -/
def Camera.config_mut (tan : ℚ → ℚ) (rotv : Vec3 → ℚ → Vec3 → Vec3)
    (self : Camera) (cfg : CameraConfig) : Bool × Camera :=
  if cfg.resolution.1 * cfg.resolution.2 % 2 ^ 32 = 0 then (false, self)
  else if |fov_angle cfg.fov| ≤ 0 ∨ pi64 < |fov_angle cfg.fov| then (false, self)
  else
    let fov := fov_abs cfg.fov
    let w := cfg.direction.normal
    let u0 := (w.cross WORLD_UP).normal
    let v0 := (u0.cross w).normal
    let u := if cfg.rotation ≠ 0 then (rotv u0 cfg.rotation w).normal else u0
    let v := if cfg.rotation ≠ 0 then (rotv v0 cfg.rotation w).normal else v0
    let self1 :=
      { self with
        fov := fov
        resolution := cfg.resolution
        rotation := cfg.rotation
        origin := cfg.position
        u := u
        v := v
        w := w }
    let aspect : ℚ := (cfg.resolution.1 : ℚ) / (cfg.resolution.2 : ℚ)
    match cfg.focus_mode with
    | FocusMode.FocalPlane focal_distance aperture =>
      if focal_distance < 0 then (false, self1)
      else if aperture < 0 then (false, self1)
      else
        let distance_to_plane := focal_distance
        let sensor :=
          match fov with
          | FieldOfView.Horizontal alpha =>
            let sensor_width := 2 * distance_to_plane * tan (alpha / 2)
            (sensor_width, sensor_width / aspect)
          | FieldOfView.Vertical alpha =>
            let sensor_height := 2 * distance_to_plane * tan (alpha / 2)
            (sensor_height * aspect, sensor_height)
        let pixel_width := sensor.1 / (cfg.resolution.1 : ℚ)
        let pixel_height := sensor.2 / (cfg.resolution.2 : ℚ)
        (true,
          { self1 with
            focus_mode := cfg.focus_mode
            distance_to_plane := distance_to_plane
            first_pixel_pos := cfg.position + distance_to_plane * w
              - (sensor.1 / 2 - pixel_width / 2) * u
              + (sensor.2 / 2 - pixel_height / 2) * v
            pixel_width := pixel_width
            pixel_height := pixel_height })
    | FocusMode.PinHole =>
      let sensor_height : ℚ := 1
      let sensor_width := sensor_height * aspect
      let distance_to_plane :=
        match fov with
        | FieldOfView.Horizontal alpha => sensor_width / (2 * tan (alpha / 2))
        | FieldOfView.Vertical alpha => sensor_height / (2 * tan (alpha / 2))
      let pixel_width := sensor_width / (cfg.resolution.1 : ℚ)
      let pixel_height := sensor_height / (cfg.resolution.2 : ℚ)
      (true,
        { self1 with
          focus_mode := cfg.focus_mode
          distance_to_plane := distance_to_plane
          first_pixel_pos := cfg.position + distance_to_plane * w
            - (sensor_width / 2 - pixel_width / 2) * u
            + (sensor_height / 2 - pixel_height / 2) * v
          pixel_width := pixel_width
          pixel_height := pixel_height })

/-- The camera-revision `Ray` (ray.rs / the `Ray::new(origin, direction)`
calls of camera.rs: origin plus normalized direction, no wavelength). -/
structure CRay where
  origin : Vec3
  direction : Vec3
deriving DecidableEq, Repr

/-- Embeds `Ray::new` of the camera revision — normalizes the direction. -/
def CRay.new (origin direction : Vec3) : CRay := ⟨origin, direction.normal⟩

/-- Embeds `camera.rs`: `Camera::cast_ray`.  The `rng.sample(rand_distr::UnitDisc)`
draw is modelled as the explicit lens sample `lens` (a point of the
closed unit disc; theorems quantifying over it carry
`lens.1² + lens.2² ≤ 1`). -/
def cast_ray (cam : Camera) (i j : ℕ) (lens : ℚ × ℚ) : Option CRay :=
  if cam.resolution.1 ≤ i ∨ cam.resolution.2 ≤ j then none
  else
    let ray_origin :=
      match cam.focus_mode with
      | FocusMode.PinHole => cam.origin
      | FocusMode.FocalPlane _ aperture =>
        cam.origin + aperture * (lens.1 * cam.u + lens.2 * cam.v)
    let pixel_position := cam.first_pixel_pos
      + ((i : ℚ) * cam.pixel_width) * cam.u
      - ((j : ℚ) * cam.pixel_height) * cam.v
    some (CRay.new ray_origin (pixel_position - ray_origin))

/-- The code's camera-configuration rejection condition, for the amended
C5: the u32 resolution-area product wraps to zero (in particular width
or height 0, but also wrap-around products such as 65536·65536),
abs-folded FOV angle outside `(0, PI]`, or (in FocalPlane mode) negative
focal distance or aperture. -/
def config_rejects (cfg : CameraConfig) : Prop :=
  cfg.resolution.1 * cfg.resolution.2 % 2 ^ 32 = 0 ∨
  fov_angle cfg.fov = 0 ∨ pi64 < |fov_angle cfg.fov| ∨
  (match cfg.focus_mode with
   | FocusMode.FocalPlane fd ap => fd < 0 ∨ ap < 0
   | FocusMode.PinHole => False)

/-! Concrete instances used by the witnesses and counterexamples. -/

/-- Concrete stand-in for `f64::tan` (its values are irrelevant to every
property below). -/
def tan0 : ℚ → ℚ := fun _ => 1

/-- Concrete stand-in for `glm::rotate_vec3` (never invoked on the
rotation-0 instances below). -/
def rotv0 : Vec3 → ℚ → Vec3 → Vec3 := fun v _ _ => v

/-- Concrete stand-in for the f32 trigonometric functions. -/
def F0 : FloatOps := ⟨fun _ => 1, fun _ => 0⟩

/-- Emission spectrum interpolating to the constant 5 at wavelength 2. -/
def spdE : Spectrum := ⟨[1, 3], [5, 5], 2⟩

/-- Material with emission `spdE` and no absorption spectrum. -/
def mat0 : MaterialProperties := ⟨some spdE, none, 0, 0, 1⟩

/-- Unit sphere in front of the test ray. -/
def sphere0 : GSphere := ⟨⟨0, 0, 5⟩, 1⟩

/-- The single object of the test scene. -/
def obj0 : MaterialObject := ⟨sphere0, mat0⟩

/-- Single-object test scene. -/
def scene0 : Scene := ⟨[obj0]⟩

/-- Test ray from the origin toward `sphere0`, wavelength 2. -/
def ray0 : Ray := Ray.new ⟨0, 0, 0⟩ ⟨0, 0, 1⟩ 2

/-- Path tracer with hard depth cutoff 1. -/
def pt0 : PathTracer := ⟨128, RayExtinction.Fix 1, 1/2⟩

/-- Path tracer with hard depth cutoff 0. -/
def pt8 : PathTracer := ⟨128, RayExtinction.Fix 0, 1/2⟩

/-- Test RNG stream. -/
def rng0 : Rng := [0, 0, 0, 0]

/-- Three-sample spectrum with powers 10, 20, 30. -/
def specA : Spectrum := ⟨[1, 2, 3], [10, 20, 30], 3⟩

/-- Single-sample spectrum: wavelength 2, power 7. -/
def specB : Spectrum := ⟨[2], [7], 1⟩

/-- Three-sample spectrum with powers 0, 0, 5. -/
def specC : Spectrum := ⟨[1, 2, 3], [0, 0, 5], 3⟩

/-- Radius-10 sphere at the origin (the sphere of the source's own
tests). -/
def sphere3 : SSphere := ⟨⟨0, 0, 0⟩, 10⟩

/-- Ray from `(0,0,20)` toward the origin. -/
def ray3 : Ray := Ray.new ⟨0, 0, 20⟩ ⟨0, 0, -1⟩ 500

/-- The hit record `sphere3.intersect ray3` produces. -/
def hit3 : HitRecord := ⟨10, ⟨0, 0, 10⟩, ⟨0, 0, -1⟩⟩

/-- FocalPlane camera configuration: facing +z, aperture 2. -/
def cfg2 : CameraConfig :=
  ⟨⟨0, 0, 0⟩, ⟨0, 0, 1⟩, (2, 2), 0, FieldOfView.Horizontal 1,
   FocusMode.FocalPlane 1 2⟩

/-- The camera `Camera.config tan0 rotv0 cfg2` produces. -/
def cam2 : Camera :=
  ⟨⟨0, 0, 0⟩, ⟨-1, 0, 0⟩, ⟨0, 1, 0⟩, ⟨0, 0, 1⟩, 0, (2, 2),
   FieldOfView.Horizontal 1, FocusMode.FocalPlane 1 2, 1,
   ⟨1/2, 1/2, 1⟩, 1, 1⟩

/-- The ray `cast_ray cam2 0 0 (1, 0)` produces (lens sample on the rim
of the unit disc). -/
def crayC2 : CRay := ⟨⟨-2, 0, 0⟩, ⟨5/6, 1/6, 1/3⟩⟩

/-- The ray `cast_ray cam2 0 0 (0, 0)` produces (central lens sample). -/
def crayW2 : CRay := ⟨⟨0, 0, 0⟩, ⟨1/2, 1/2, 1⟩⟩

/-- PinHole configuration with a negative field-of-view angle. -/
def cfg5a : CameraConfig :=
  ⟨⟨0, 0, 0⟩, ⟨0, 0, 1⟩, (1, 1), 0, FieldOfView.Vertical (-1), FocusMode.PinHole⟩

/-- PinHole configuration whose field-of-view angle is exactly the f64
constant PI. -/
def cfg5b : CameraConfig :=
  ⟨⟨0, 0, 0⟩, ⟨0, 0, 1⟩, (1, 1), 0, FieldOfView.Vertical pi64, FocusMode.PinHole⟩

/-- PinHole configuration whose u32 resolution product wraps to zero
(65536 · 65536 = 2^32) although neither dimension is zero. -/
def cfg5c : CameraConfig :=
  ⟨⟨0, 0, 0⟩, ⟨0, 0, 1⟩, (65536, 65536), 0, FieldOfView.Vertical 1, FocusMode.PinHole⟩

/-- FocalPlane configuration with a negative aperture (fails validation
only after the coordinate system has been overwritten). -/
def cfg5d : CameraConfig :=
  ⟨⟨7, 7, 7⟩, ⟨0, 0, 1⟩, (2, 2), 0, FieldOfView.Vertical 1,
   FocusMode.FocalPlane 1 (-1)⟩

/-- PinHole camera configuration at position `(1,2,3)`. -/
def cfg9 : CameraConfig :=
  ⟨⟨1, 2, 3⟩, ⟨0, 0, 1⟩, (2, 2), 0, FieldOfView.Vertical 1, FocusMode.PinHole⟩

/-- The camera `Camera.config tan0 rotv0 cfg9` produces. -/
def cam9 : Camera :=
  ⟨⟨1, 2, 3⟩, ⟨-1, 0, 0⟩, ⟨0, 1, 0⟩, ⟨0, 0, 1⟩, 0, (2, 2),
   FieldOfView.Vertical 1, FocusMode.PinHole, 1/2,
   ⟨5/4, 9/4, 7/2⟩, 1/2, 1/2⟩

/-- The ray `cast_ray cam9 1 0 (1/3, 1/2)` produces. -/
def rr9 : CRay := ⟨⟨1, 2, 3⟩, ⟨-1/2, 1/2, 1⟩⟩

/-! Helper lemmas. -/

theorem fsqrt_nonneg (q : ℚ) : 0 ≤ fsqrt q :=
  div_nonneg (Nat.cast_nonneg _) (Nat.cast_nonneg _)

theorem norm2_nonneg (v : Vec3) : 0 ≤ v.norm2 := by
  have hx := mul_self_nonneg v.x
  have hy := mul_self_nonneg v.y
  have hz := mul_self_nonneg v.z
  unfold Vec3.norm2
  linarith

theorem solve_deg2_ordered (a b c x1 x2 : ℚ)
    (h : solve_deg2_eq a b c = some (x1, x2)) : x1 ≤ x2 := by
  simp only [solve_deg2_eq] at h
  split_ifs at h with h1 h2 h3 h4 h5 <;>
      (try (injection h with h6; injection h6 with e1 e2; subst e1; subst e2)) <;>
      first
        | exact h3
        | exact le_of_not_le h3
        | exact le_refl _

theorem closest_facing_nonneg (t1 t2 t : ℚ)
    (h : closest_facing_solution t1 t2 = some t) : 0 ≤ t := by
  unfold closest_facing_solution at h
  split_ifs at h with h1 h2 <;> injection h with e <;> subst e <;> assumption

/-- Claim C6: `solve_deg2_eq` returns exactly the listed results on the
five listed inputs, and whenever it returns a pair `(x1, x2)` the roots
satisfy `x1 ≤ x2`. -/
theorem solve_deg2_eq_spec :
    solve_deg2_eq (-1) 2 3 = some (-1, 3) ∧
    solve_deg2_eq 1 2 1 = some (-1, -1) ∧
    solve_deg2_eq 1 2 3 = none ∧
    solve_deg2_eq 0 1 2 = some (-2, -2) ∧
    solve_deg2_eq 0 0 2 = none ∧
    ∀ a b c x1 x2, solve_deg2_eq a b c = some (x1, x2) → x1 ≤ x2 :=
  ⟨by decide, by decide, by decide, by decide, by decide, solve_deg2_ordered⟩

/-- Witness for C6: the ordering conjunct applied at a concrete solved
input. -/
theorem solve_deg2_eq_spec_witness : (-1 : ℚ) ≤ 3 :=
  solve_deg2_eq_spec.2.2.2.2.2 (-1) 2 3 (-1) 3 (by decide)

/-- Claim C7: given ordered roots `t1 ≤ t2`, `closest_facing_solution`
returns `t1` if `t1 ≥ 0`, else `t2` if `t2 ≥ 0`, else no hit; any
returned value is non-negative and is the smallest non-negative root;
the geometry.rs `closest_sol` implements the same rule; and every hit
record produced by the shape.rs sphere intersection carries a
non-negative ray parameter. -/
theorem closest_facing_solution_spec (t1 t2 : ℚ) (h : t1 ≤ t2) :
    (closest_facing_solution t1 t2 =
      if 0 ≤ t1 then some t1 else if 0 ≤ t2 then some t2 else none) ∧
    (∀ t, closest_facing_solution t1 t2 = some t →
      0 ≤ t ∧ (t = t1 ∨ t = t2) ∧ ∀ s, (s = t1 ∨ s = t2) → 0 ≤ s → t ≤ s) ∧
    (closest_facing_solution t1 t2 = none ↔ t1 < 0 ∧ t2 < 0) ∧
    closest_sol t1 t2 = closest_facing_solution t1 t2 ∧
    ∀ (sp : SSphere) (r : Ray) (hit : HitRecord),
      sp.intersect r = some hit → 0 ≤ hit.ray_t := by
  refine ⟨rfl, ?_, ?_, ?_, ?_⟩
  · intro t ht
    unfold closest_facing_solution at ht
    split_ifs at ht with h1 h2
    · injection ht with e
      subst e
      refine ⟨h1, Or.inl rfl, ?_⟩
      rintro s (rfl | rfl) _
      · exact le_refl _
      · exact h
    · injection ht with e
      subst e
      refine ⟨h2, Or.inr rfl, ?_⟩
      rintro s (rfl | rfl) hs
      · exact absurd hs h1
      · exact le_refl _
  · unfold closest_facing_solution
    split_ifs with h1 h2
    · constructor
      · intro hbad
        exact absurd hbad (by simp)
      · rintro ⟨hl, _⟩
        exact absurd h1 (not_le.mpr hl)
    · constructor
      · intro hbad
        exact absurd hbad (by simp)
      · rintro ⟨_, hl⟩
        exact absurd h2 (not_le.mpr hl)
    · exact ⟨fun _ => ⟨not_le.mp h1, not_le.mp h2⟩, fun _ => rfl⟩
  · unfold closest_sol closest_facing_solution
    split_ifs with h1 h2 h3 h4 <;> first | rfl | linarith
  · intro sp r hit hhit
    simp only [SSphere.intersect] at hhit
    split at hhit
    · exact absurd hhit (by simp)
    · split at hhit
      · exact absurd hhit (by simp)
      · injection hhit with e
        subst e
        exact closest_facing_nonneg _ _ _ (by assumption)

/-- Witness for C7: the no-hit characterization at the concrete ordered
pair `(-1, 2)`. -/
theorem closest_facing_solution_spec_witness :
    closest_facing_solution (-1) 2 = none ↔ (-1 : ℚ) < 0 ∧ (2 : ℚ) < 0 :=
  (closest_facing_solution_spec (-1) 2 (by decide)).2.2.1

/-- Claim C10 (code bug): in the vec3.rs copy of `Vec3`, the z component
of `Add`/`Sub` is computed from `self.x`, so `(v1 + v2).z ≠ v1.z + v2.z`
at `v1 = (0,0,1)`, `v2 = (0,0,0)`, and addition is not commutative
there.  (The file's own unit tests only pass because their test vectors
happen to satisfy `x = z`.) -/
theorem vec3_componentwise_bug :
    (v3add ⟨0, 0, 1⟩ ⟨0, 0, 0⟩).z = 0 ∧
    (⟨0, 0, 1⟩ : Vec3).z + (⟨0, 0, 0⟩ : Vec3).z = 1 ∧
    (v3sub ⟨0, 0, 1⟩ ⟨0, 0, 0⟩).z = 0 ∧
    (⟨0, 0, 1⟩ : Vec3).z - (⟨0, 0, 0⟩ : Vec3).z = 1 ∧
    v3add ⟨0, 0, 1⟩ ⟨0, 0, 0⟩ ≠ v3add ⟨0, 0, 0⟩ ⟨0, 0, 1⟩ := by decide

/-- Claim C1 (code bug): `interpolate_at` evaluated at stored
wavelengths.  At the first stored wavelength of `specA` it returns no
value (the claim says the stored power 10); on the single-sample
spectrum `specB` the exact match returns the wavelength 2, not the
stored power 7; at the third stored wavelength of `specC` it
extrapolates the first segment and returns 0, not the stored power 5.
The out-of-range behavior (strictly below the first or above the last
stored wavelength gives no value) does hold. -/
theorem interpolate_at_exact_match_bug :
    interpolate_at specA 1 = none ∧
    specA.powers.getD 0 0 = 10 ∧
    interpolate_at specB 2 = some 2 ∧
    specB.powers.getD 0 0 = 7 ∧ (2 : ℚ) ≠ 7 ∧
    interpolate_at specC 3 = some 0 ∧
    specC.powers.getD 2 0 = 5 ∧ (0 : ℚ) ≠ 5 ∧
    interpolate_at specA 0 = none ∧ interpolate_at specA 4 = none := by decide

theorem ssphere_intersect_normal (s : SSphere) (r : Ray) (hit : HitRecord)
    (h : s.intersect r = some hit) :
    hit.normal = s.normal hit.point r.direction := by
  simp only [SSphere.intersect] at h
  split at h
  · exact absurd h (by simp)
  · split at h
    · exact absurd h (by simp)
    · injection h with e
      subst e
      rfl

theorem vec3_eq_zero_of_norm2_nonpos (v : Vec3) (h : v.norm2 ≤ 0) :
    v.x = 0 ∧ v.y = 0 ∧ v.z = 0 := by
  have hx := mul_self_nonneg v.x
  have hy := mul_self_nonneg v.y
  have hz := mul_self_nonneg v.z
  unfold Vec3.norm2 at h
  refine ⟨mul_self_eq_zero.mp ?_, mul_self_eq_zero.mp ?_, mul_self_eq_zero.mp ?_⟩ <;>
    linarith

theorem normal_formula_unit_and_along (d sv : Vec3)
    (hk : d.dot sv ≠ 0)
    (hex : fsqrt (Vec3.norm2 ((d.dot sv) * sv)) * fsqrt (Vec3.norm2 ((d.dot sv) * sv)) =
      Vec3.norm2 ((d.dot sv) * sv)) :
    ((d.dot sv) * sv).normal.norm2 = 1 ∧ 0 < ((d.dot sv) * sv).normal.dot d := by
  have hsv : 0 < sv.norm2 := by
    rcases lt_or_le 0 sv.norm2 with hpos | hle
    · exact hpos
    · obtain ⟨hx, hy, hz⟩ := vec3_eq_zero_of_norm2_nonpos sv hle
      exfalso
      apply hk
      unfold Vec3.dot
      rw [hx, hy, hz]
      ring
  have hm2 : Vec3.norm2 ((d.dot sv) * sv) = (d.dot sv * d.dot sv) * sv.norm2 := by
    show Vec3.norm2 ⟨_, _, _⟩ = _
    unfold Vec3.norm2
    ring
  have hm2pos : 0 < Vec3.norm2 ((d.dot sv) * sv) := by
    rw [hm2]
    exact mul_pos (mul_self_pos.mpr hk) hsv
  have hnpos : 0 < fsqrt (Vec3.norm2 ((d.dot sv) * sv)) := by
    rcases (fsqrt_nonneg (Vec3.norm2 ((d.dot sv) * sv))).lt_or_eq with hlt | heq
    · exact hlt
    · exfalso
      rw [← heq] at hex
      rw [← hex] at hm2pos
      simp at hm2pos
  set m : Vec3 := (d.dot sv) * sv with hm
  have hnorm : m.norm = fsqrt m.norm2 := rfl
  constructor
  · show Vec3.norm2 ⟨m.x / m.norm, m.y / m.norm, m.z / m.norm⟩ = 1
    unfold Vec3.norm2
    have expand : m.x / m.norm * (m.x / m.norm) + m.y / m.norm * (m.y / m.norm) +
        m.z / m.norm * (m.z / m.norm) =
        (m.x * m.x + m.y * m.y + m.z * m.z) / (m.norm * m.norm) := by
      ring
    rw [expand, hnorm, hex]
    exact div_self (ne_of_gt hm2pos)
  · show 0 < Vec3.dot ⟨m.x / m.norm, m.y / m.norm, m.z / m.norm⟩ d
    unfold Vec3.dot
    have expand : m.x / m.norm * d.x + m.y / m.norm * d.y + m.z / m.norm * d.z =
        (m.x * d.x + m.y * d.y + m.z * d.z) / m.norm := by
      ring
    rw [expand]
    have hmd : m.x * d.x + m.y * d.y + m.z * d.z = (d.dot sv) * (d.dot sv) := by
      rw [hm]
      show (d.dot sv) * sv.x * d.x + (d.dot sv) * sv.y * d.y + (d.dot sv) * sv.z * d.z = _
      unfold Vec3.dot
      ring
    rw [hmd, hnorm]
    exact div_pos (mul_self_pos.mpr hk) hnpos

/-- Claim C3 (counterexample): the sphere normal does not oppose the
incident direction.  The radius-10 sphere at the origin hit by the ray
from `(0,0,20)` toward `(0,0,-1)` yields normal `(0,0,-1)`, whose dot
product with the incident direction is `+1`, not negative. -/
theorem sphere_hit_normal_sign_counterexample :
    SSphere.intersect sphere3 ray3 = some hit3 ∧
    hit3.normal.dot ray3.direction = 1 ∧
    ¬ hit3.normal.dot ray3.direction < 0 := by decide

/-- Claim C3 (amended): for every `shape.rs` sphere hit, the returned
normal is a unit vector that faces ALONG the incident ray (positive dot
product with the ray direction), provided the hit is non-tangential
(`d·(center - point) ≠ 0`, which also rules out `center = point`) and
the float square root is exact at the normalization argument. -/
theorem sphere_hit_normal_unit_and_along (s : SSphere) (r : Ray) (hit : HitRecord)
    (hhit : s.intersect r = some hit)
    (hk : r.direction.dot (s.center - hit.point) ≠ 0)
    (hex : fsqrt (Vec3.norm2 ((r.direction.dot (s.center - hit.point)) *
        (s.center - hit.point))) *
      fsqrt (Vec3.norm2 ((r.direction.dot (s.center - hit.point)) *
        (s.center - hit.point))) =
      Vec3.norm2 ((r.direction.dot (s.center - hit.point)) * (s.center - hit.point))) :
    hit.normal.norm2 = 1 ∧ 0 < hit.normal.dot r.direction := by
  have hn := ssphere_intersect_normal s r hit hhit
  rw [hn]
  exact normal_formula_unit_and_along r.direction (s.center - hit.point) hk hex

/-- Witness for the amended C3, at the sphere and ray of the source's
own unit test. -/
theorem sphere_hit_normal_unit_and_along_witness :
    hit3.normal.norm2 = 1 ∧ 0 < hit3.normal.dot ray3.direction :=
  sphere_hit_normal_unit_and_along sphere3 ray3 hit3 (by decide) (by decide) (by decide)

theorem propagate_ray_succ (F : FloatOps) (pt : PathTracer) (fuel : ℕ) (ray : Ray)
    (scene : Scene) (counter : ℕ) (rng : Rng) :
    propagate_ray F pt (fuel + 1) ray scene counter rng =
      (let er := should_extinguish pt counter rng
       if er.1 then (0, er.2)
       else
         match intersect_ray ray scene with
         | none => (0, er.2)
         | some (point, obj) =>
           let e := emitted_power obj.material ray.wavelength
           let t := transmittance obj.material ray.wavelength
           if t ≤ 0 then (e, er.2)
           else
             let nr := calculate_next_ray F point ray obj er.2
             let rest := propagate_ray F pt fuel nr.1 scene (counter + 1) nr.2
             (e + t * rest.1, rest.2)) := rfl

/-- Claim C8 (counterexample): with the `Fix(0)` cutoff and one level of
recursion depth already consumed, `propagate_ray` on a ray hitting the
fully absorptive (`t = 0 ≤ 0`) emissive (`E = 5`) object returns 0, not
`E`: the extinction test runs before the surface is evaluated, so the
result is not independent of the recursion depth remaining. -/
theorem propagate_extinction_counterexample :
    transmittance mat0 2 ≤ 0 ∧
    mat0.emission = some spdE ∧
    interpolate_at spdE 2 = some 5 ∧
    intersect_ray ray0 scene0 = some (⟨0, 0, 4⟩, obj0) ∧
    propagate_ray F0 pt8 3 ray0 scene0 1 rng0 = (0, rng0) ∧
    (0 : ℚ) ≠ 5 := by decide

/-- Claim C8 (amended): on a call that survives the extinction test, a
hit on an object whose transmittance response at the ray's wavelength is
`t ≤ 0` and whose emission spectrum interpolates to `E` returns exactly
`(E, rng)` — no secondary ray is cast (the RNG stream is untouched past
the extinction draw) and the remaining recursion depth (fuel, counter)
is irrelevant. -/
theorem propagate_fully_absorptive_returns_emission (F : FloatOps) (pt : PathTracer)
    (fuel : ℕ) (ray : Ray) (scene : Scene) (counter : ℕ) (rng rng1 : Rng)
    (point : Vec3) (obj : MaterialObject) (spd : Spectrum) (E : ℚ)
    (hext : should_extinguish pt counter rng = (false, rng1))
    (hhit : intersect_ray ray scene = some (point, obj))
    (ht : transmittance obj.material ray.wavelength ≤ 0)
    (hE : obj.material.emission = some spd)
    (hI : interpolate_at spd ray.wavelength = some E) :
    propagate_ray F pt (fuel + 1) ray scene counter rng = (E, rng1) := by
  rw [propagate_ray_succ]
  simp only [hext, hhit]
  rw [if_neg (by simp)]
  rw [if_pos ht]
  unfold emitted_power
  rw [hE]
  dsimp only
  rw [hI]
  rfl

/-- Witness for the amended C8 at the concrete single-object scene. -/
theorem propagate_fully_absorptive_returns_emission_witness :
    propagate_ray F0 pt0 3 ray0 scene0 0 rng0 = (5, rng0) :=
  propagate_fully_absorptive_returns_emission F0 pt0 2 ray0 scene0 0 rng0 rng0
    ⟨0, 0, 4⟩ obj0 spdE 5 (by decide) (by decide) (by decide) (by decide) (by decide)

/-- Claim C4 (counterexample): when the hit object's material defines no
absorption spectrum the transmittance used is 0.0, not 1.0: on the
emissive (`E = 5`) absorption-free object, the source `propagate_ray`
stops at the surface and returns 5 with the RNG stream untouched,
whereas the claimed fallback-1.0 variant (`propagate_ray_claimed`)
continues with a secondary ray and returns 10. -/
theorem propagate_absent_absorption_counterexample :
    mat0.absorption = none ∧
    propagate_ray F0 pt0 3 ray0 scene0 0 rng0 = (5, rng0) ∧
    propagate_ray_claimed F0 pt0 3 ray0 scene0 0 rng0 = (10, []) ∧
    (5 : ℚ) ≠ 10 := by decide

/-- Claim C4 (amended): on a non-extinguished call that hits an object,
(1) if the material defines no absorption spectrum the transmittance is
0.0 — the path stops at the surface and returns only the emission, with
no secondary ray (RNG untouched); (2) if the absorption spectrum exists
but has no value at the ray's wavelength, the fallback is 1.0 — the path
continues with a secondary ray weighted by exactly 1. -/
theorem propagate_transmittance_fallback (F : FloatOps) (pt : PathTracer)
    (fuel : ℕ) (ray : Ray) (scene : Scene) (counter : ℕ) (rng rng1 : Rng)
    (point : Vec3) (obj : MaterialObject)
    (hext : should_extinguish pt counter rng = (false, rng1))
    (hhit : intersect_ray ray scene = some (point, obj)) :
    (obj.material.absorption = none →
      propagate_ray F pt (fuel + 1) ray scene counter rng =
        (emitted_power obj.material ray.wavelength, rng1)) ∧
    (∀ spd, obj.material.absorption = some spd →
      interpolate_at spd ray.wavelength = none →
      propagate_ray F pt (fuel + 1) ray scene counter rng =
        (emitted_power obj.material ray.wavelength +
          1 * (propagate_ray F pt fuel (calculate_next_ray F point ray obj rng1).1
              scene (counter + 1) (calculate_next_ray F point ray obj rng1).2).1,
         (propagate_ray F pt fuel (calculate_next_ray F point ray obj rng1).1
            scene (counter + 1) (calculate_next_ray F point ray obj rng1).2).2)) := by
  constructor
  · intro habs
    have ht : transmittance obj.material ray.wavelength = 0 := by
      unfold transmittance
      rw [habs]
    rw [propagate_ray_succ]
    simp only [hext, hhit]
    rw [if_neg (by simp)]
    rw [if_pos (le_of_eq ht)]
  · intro spd habs hni
    have ht : transmittance obj.material ray.wavelength = 1 := by
      unfold transmittance
      rw [habs]
      dsimp only
      rw [hni]
      rfl
    rw [propagate_ray_succ]
    simp only [hext, hhit]
    rw [if_neg (by simp)]
    rw [if_neg (by rw [ht]; norm_num)]
    rw [ht]

/-- Witness for the amended C4, first branch, at the concrete
single-object scene (absorption absent: the call returns the emission
with the RNG stream untouched). -/
theorem propagate_transmittance_fallback_witness :
    propagate_ray F0 pt0 3 ray0 scene0 0 rng0 =
      (emitted_power obj0.material ray0.wavelength, rng0) :=
  (propagate_transmittance_fallback F0 pt0 2 ray0 scene0 0 rng0 rng0 ⟨0, 0, 4⟩ obj0
    (by decide) (by decide)).1 (by decide)

@[simp] theorem Vec3.add_x (a b : Vec3) : (a + b).x = a.x + b.x := rfl

@[simp] theorem Vec3.add_y (a b : Vec3) : (a + b).y = a.y + b.y := rfl

@[simp] theorem Vec3.add_z (a b : Vec3) : (a + b).z = a.z + b.z := rfl

@[simp] theorem Vec3.sub_x (a b : Vec3) : (a - b).x = a.x - b.x := rfl

@[simp] theorem Vec3.sub_y (a b : Vec3) : (a - b).y = a.y - b.y := rfl

@[simp] theorem Vec3.sub_z (a b : Vec3) : (a - b).z = a.z - b.z := rfl

@[simp] theorem Vec3.smul_x (s : ℚ) (v : Vec3) : (s * v).x = s * v.x := rfl

@[simp] theorem Vec3.smul_y (s : ℚ) (v : Vec3) : (s * v).y = s * v.y := rfl

@[simp] theorem Vec3.smul_z (s : ℚ) (v : Vec3) : (s * v).z = s * v.z := rfl

theorem vec3_add_sub_cancel (a b : Vec3) : a + b - a = b := by
  show Vec3.mk _ _ _ = b
  cases b
  simp only [Vec3.mk.injEq, Vec3.add_x, Vec3.add_y, Vec3.add_z]
  refine ⟨by ring, by ring, by ring⟩

theorem norm2_smul_comb (u v : Vec3) (a x y : ℚ)
    (hu : u.norm2 = 1) (hv : v.norm2 = 1) (huv : u.dot v = 0) :
    Vec3.norm2 (a * (x * u + y * v)) = (a * a) * (x * x + y * y) := by
  have expand : Vec3.norm2 (a * (x * u + y * v)) =
      (a * a) * ((x * x) * u.norm2 + 2 * (x * y) * (u.dot v) + (y * y) * v.norm2) := by
    unfold Vec3.norm2 Vec3.dot
    simp only [Vec3.add_x, Vec3.add_y, Vec3.add_z, Vec3.smul_x, Vec3.smul_y, Vec3.smul_z]
    ring
  rw [expand, hu, hv, huv]
  ring

theorem camera_config_fields (tan : ℚ → ℚ) (rotv : Vec3 → ℚ → Vec3 → Vec3)
    (cfg : CameraConfig) (cam : Camera)
    (h : Camera.config tan rotv cfg = some cam) :
    cam.origin = cfg.position ∧ cam.resolution = cfg.resolution ∧
      cam.focus_mode = cfg.focus_mode := by
  simp only [Camera.config] at h
  split_ifs at h <;>
    split at h <;>
    (try split_ifs at h) <;>
    (injection h with e; subst e; exact ⟨rfl, rfl, rfl⟩)

/-- Claim C9: for a successfully configured PinHole camera, `cast_ray`
returns no ray exactly when the pixel is out of range (`i ≥ width` or
`j ≥ height`), and every returned ray's origin is exactly the camera
position, for every lens sample (RNG draw). -/
theorem cast_ray_pinhole_origin (tan : ℚ → ℚ) (rotv : Vec3 → ℚ → Vec3 → Vec3)
    (cfg : CameraConfig) (cam : Camera)
    (hcam : Camera.config tan rotv cfg = some cam)
    (hp : cfg.focus_mode = FocusMode.PinHole) (i j : ℕ) (lens : ℚ × ℚ) :
    cam.resolution = cfg.resolution ∧
    (cast_ray cam i j lens = none ↔ cam.resolution.1 ≤ i ∨ cam.resolution.2 ≤ j) ∧
    (∀ r, cast_ray cam i j lens = some r → r.origin = cfg.position) := by
  obtain ⟨ho, hres, hfm⟩ := camera_config_fields tan rotv cfg cam hcam
  have hcf : cam.focus_mode = FocusMode.PinHole := hfm.trans hp
  refine ⟨hres, ?_, ?_⟩
  · unfold cast_ray
    split_ifs with hin
    · exact ⟨fun _ => hin, fun _ => rfl⟩
    · constructor
      · intro hbad
        exact absurd hbad (by simp)
      · intro hcond
        exact absurd hcond hin
  · intro r hr
    unfold cast_ray at hr
    split_ifs at hr with hin
    rw [hcf] at hr
    dsimp only at hr
    injection hr with e
    subst e
    exact ho

/-- Witness for C9 at the concrete PinHole camera `cam9`. -/
theorem cast_ray_pinhole_origin_witness : rr9.origin = cfg9.position :=
  (cast_ray_pinhole_origin tan0 rotv0 cfg9 cam9 (by decide) (by decide) 1 0
    (1/3, 1/2)).2.2 rr9 (by decide)

/-- Claim C2 (counterexample): the FocalPlane lens offset uses the full
aperture value as the disc radius, not `aperture/2`: with aperture 2,
the lens sample `(1, 0)` of the unit disc puts the ray origin at
distance 2 from the camera position — `norm2 = 4 > 1 = (a/2)²`. -/
theorem cast_ray_aperture_counterexample :
    Camera.config tan0 rotv0 cfg2 = some cam2 ∧
    cfg2.focus_mode = FocusMode.FocalPlane 1 2 ∧
    (1 : ℚ) * 1 + 0 * 0 ≤ 1 ∧
    cast_ray cam2 0 0 (1, 0) = some crayC2 ∧
    Vec3.norm2 (crayC2.origin - cfg2.position) = 4 ∧
    ¬ Vec3.norm2 (crayC2.origin - cfg2.position) ≤ (2 / 2) * (2 / 2) := by decide

/-- Claim C2 (amended): for a successfully configured FocalPlane camera
with aperture `a` whose derived `u`, `v` basis vectors are exactly
orthonormal, every cast ray's origin lies within distance `a` (not
`a/2`) of the camera position, stated via squared norms:
`norm2(origin - position) ≤ a²`, for every lens sample in the closed
unit disc. -/
theorem cast_ray_aperture_bound (tan : ℚ → ℚ) (rotv : Vec3 → ℚ → Vec3 → Vec3)
    (cfg : CameraConfig) (cam : Camera) (fd ap x y : ℚ) (i j : ℕ) (r : CRay)
    (hcam : Camera.config tan rotv cfg = some cam)
    (hf : cfg.focus_mode = FocusMode.FocalPlane fd ap)
    (hu : cam.u.norm2 = 1) (hv : cam.v.norm2 = 1) (huv : cam.u.dot cam.v = 0)
    (hlens : x * x + y * y ≤ 1)
    (hr : cast_ray cam i j (x, y) = some r) :
    Vec3.norm2 (r.origin - cfg.position) ≤ ap * ap := by
  obtain ⟨ho, hres, hfm⟩ := camera_config_fields tan rotv cfg cam hcam
  have hcf : cam.focus_mode = FocusMode.FocalPlane fd ap := hfm.trans hf
  unfold cast_ray at hr
  split_ifs at hr with hin
  rw [hcf] at hr
  dsimp only at hr
  injection hr with e
  subst e
  show Vec3.norm2 ((cam.origin + ap * (x * cam.u + y * cam.v)) - cfg.position) ≤ ap * ap
  rw [← ho, vec3_add_sub_cancel, norm2_smul_comb cam.u cam.v ap x y hu hv huv]
  have h1 : (ap * ap) * (x * x + y * y) ≤ (ap * ap) * 1 :=
    mul_le_mul_of_nonneg_left hlens (mul_self_nonneg ap)
  simpa using h1

/-- Witness for the amended C2 at the concrete FocalPlane camera `cam2`
with the central lens sample. -/
theorem cast_ray_aperture_bound_witness :
    Vec3.norm2 (crayW2.origin - cfg2.position) ≤ 2 * 2 :=
  cast_ray_aperture_bound tan0 rotv0 cfg2 cam2 1 2 0 0 0 0 crayW2
    (by decide) (by decide) (by decide) (by decide) (by decide) (by decide) (by decide)

/-- Claim C5 (counterexample): three ways the claimed error condition
fails on the source.  Configurations whose field-of-view angle lies
outside the open interval `(0, π)` — the negative angle `-1`, and
exactly the f64 constant PI — are both accepted (the source abs-folds
the angle and tests `alpha > PI`); the resolution `(65536, 65536)` is
rejected although neither dimension is zero (the u32 area product wraps
to 0); and a rejected FocalPlane configuration (negative aperture)
leaves the previously configured camera `cam9` in a different, partially
overwritten state, so an error does not leave the camera's derived state
untouched. -/
theorem camera_config_claim_counterexample :
    (Camera.config tan0 rotv0 cfg5a).isSome = true ∧
    fov_angle cfg5a.fov = -1 ∧ ¬ ((0 : ℚ) < -1) ∧
    (Camera.config tan0 rotv0 cfg5b).isSome = true ∧
    fov_angle cfg5b.fov = pi64 ∧ ¬ (fov_angle cfg5b.fov < pi64) ∧
    Camera.config tan0 rotv0 cfg5c = none ∧
    cfg5c.resolution.1 ≠ 0 ∧ cfg5c.resolution.2 ≠ 0 ∧
    (Camera.config_mut tan0 rotv0 cam9 cfg5d).1 = false ∧
    (Camera.config_mut tan0 rotv0 cam9 cfg5d).2 ≠ cam9 := by decide

theorem camera_config_none_iff (tan : ℚ → ℚ) (rotv : Vec3 → ℚ → Vec3 → Vec3)
    (cfg : CameraConfig) :
    Camera.config tan rotv cfg = none ↔ config_rejects cfg := by
  unfold config_rejects
  simp only [Camera.config]
  rcases hfm : cfg.focus_mode with ⟨fd, ap⟩ | _ <;> dsimp only
  · by_cases h1 : cfg.resolution.1 * cfg.resolution.2 % 2 ^ 32 = 0
    · rw [if_pos h1]
      constructor
      · intro _
        exact Or.inl h1
      · intro _
        rfl
    · rw [if_neg h1]
      by_cases h2 : |fov_angle cfg.fov| ≤ 0 ∨ pi64 < |fov_angle cfg.fov|
      · rw [if_pos h2]
        constructor
        · intro _
          rcases h2 with h | h
          · exact Or.inr (Or.inl (abs_eq_zero.mp (le_antisymm h (abs_nonneg _))))
          · exact Or.inr (Or.inr (Or.inl h))
        · intro _
          rfl
      · rw [if_neg h2]
        obtain ⟨h2a, h2b⟩ := not_or.mp h2
        by_cases h3 : fd < 0
        · rw [if_pos h3]
          constructor
          · intro _
            exact Or.inr (Or.inr (Or.inr (Or.inl h3)))
          · intro _
            rfl
        · rw [if_neg h3]
          by_cases h4 : ap < 0
          · rw [if_pos h4]
            constructor
            · intro _
              exact Or.inr (Or.inr (Or.inr (Or.inr h4)))
            · intro _
              rfl
          · rw [if_neg h4]
            constructor
            · intro hbad
              exact absurd hbad (by simp)
            · intro hdis
              rcases hdis with h | h | h | h | h
              · exact absurd h h1
              · exact absurd (by rw [h]; simp : |fov_angle cfg.fov| ≤ 0) h2a
              · exact absurd h h2b
              · exact absurd h h3
              · exact absurd h h4
  · by_cases h1 : cfg.resolution.1 * cfg.resolution.2 % 2 ^ 32 = 0
    · rw [if_pos h1]
      constructor
      · intro _
        exact Or.inl h1
      · intro _
        rfl
    · rw [if_neg h1]
      by_cases h2 : |fov_angle cfg.fov| ≤ 0 ∨ pi64 < |fov_angle cfg.fov|
      · rw [if_pos h2]
        constructor
        · intro _
          rcases h2 with h | h
          · exact Or.inr (Or.inl (abs_eq_zero.mp (le_antisymm h (abs_nonneg _))))
          · exact Or.inr (Or.inr (Or.inl h))
        · intro _
          rfl
      · rw [if_neg h2]
        obtain ⟨h2a, h2b⟩ := not_or.mp h2
        constructor
        · intro hbad
          exact absurd hbad (by simp)
        · intro hdis
          rcases hdis with h | h | h | h
          · exact absurd h h1
          · exact absurd (by rw [h]; simp : |fov_angle cfg.fov| ≤ 0) h2a
          · exact absurd h h2b
          · exact h.elim

theorem camera_config_mut_agrees (tan : ℚ → ℚ) (rotv : Vec3 → ℚ → Vec3 → Vec3)
    (self : Camera) (cfg : CameraConfig) :
    (Camera.config_mut tan rotv self cfg).1 = (Camera.config tan rotv cfg).isSome ∧
    ∀ cam, Camera.config tan rotv cfg = some cam →
      (Camera.config_mut tan rotv self cfg).2 = cam := by
  simp only [Camera.config_mut, Camera.config]
  rcases hfm : cfg.focus_mode with ⟨fd, ap⟩ | _ <;> dsimp only
  · by_cases h1 : cfg.resolution.1 * cfg.resolution.2 % 2 ^ 32 = 0
    · rw [if_pos h1, if_pos h1]
      exact ⟨rfl, fun cam hcam => absurd hcam (by simp)⟩
    · rw [if_neg h1, if_neg h1]
      by_cases h2 : |fov_angle cfg.fov| ≤ 0 ∨ pi64 < |fov_angle cfg.fov|
      · rw [if_pos h2, if_pos h2]
        exact ⟨rfl, fun cam hcam => absurd hcam (by simp)⟩
      · rw [if_neg h2, if_neg h2]
        by_cases h3 : fd < 0
        · rw [if_pos h3, if_pos h3]
          exact ⟨rfl, fun cam hcam => absurd hcam (by simp)⟩
        · rw [if_neg h3, if_neg h3]
          by_cases h4 : ap < 0
          · rw [if_pos h4, if_pos h4]
            exact ⟨rfl, fun cam hcam => absurd hcam (by simp)⟩
          · rw [if_neg h4, if_neg h4]
            exact ⟨rfl, fun cam hcam => Option.some.inj hcam⟩
  · by_cases h1 : cfg.resolution.1 * cfg.resolution.2 % 2 ^ 32 = 0
    · rw [if_pos h1, if_pos h1]
      exact ⟨rfl, fun cam hcam => absurd hcam (by simp)⟩
    · rw [if_neg h1, if_neg h1]
      by_cases h2 : |fov_angle cfg.fov| ≤ 0 ∨ pi64 < |fov_angle cfg.fov|
      · rw [if_pos h2, if_pos h2]
        exact ⟨rfl, fun cam hcam => absurd hcam (by simp)⟩
      · rw [if_neg h2, if_neg h2]
        exact ⟨rfl, fun cam hcam => Option.some.inj hcam⟩

theorem camera_config_mut_early (tan : ℚ → ℚ) (rotv : Vec3 → ℚ → Vec3 → Vec3)
    (self : Camera) (cfg : CameraConfig)
    (h : cfg.resolution.1 * cfg.resolution.2 % 2 ^ 32 = 0 ∨
      |fov_angle cfg.fov| ≤ 0 ∨ pi64 < |fov_angle cfg.fov|) :
    (Camera.config_mut tan rotv self cfg).1 = false ∧
    (Camera.config_mut tan rotv self cfg).2 = self := by
  simp only [Camera.config_mut]
  rcases h with h1 | h2
  · rw [if_pos h1]
    exact ⟨rfl, rfl⟩
  · by_cases h1 : cfg.resolution.1 * cfg.resolution.2 % 2 ^ 32 = 0
    · rw [if_pos h1]
      exact ⟨rfl, rfl⟩
    · rw [if_neg h1, if_pos h2]
      exact ⟨rfl, rfl⟩

theorem camera_config_mut_late (tan : ℚ → ℚ) (rotv : Vec3 → ℚ → Vec3 → Vec3)
    (self : Camera) (cfg : CameraConfig) (fd ap : ℚ)
    (hf : cfg.focus_mode = FocusMode.FocalPlane fd ap)
    (h1 : ¬ cfg.resolution.1 * cfg.resolution.2 % 2 ^ 32 = 0)
    (h2 : ¬ (|fov_angle cfg.fov| ≤ 0 ∨ pi64 < |fov_angle cfg.fov|))
    (hba : fd < 0 ∨ ap < 0) :
    (Camera.config_mut tan rotv self cfg).1 = false ∧
    (Camera.config_mut tan rotv self cfg).2.origin = cfg.position ∧
    (Camera.config_mut tan rotv self cfg).2.resolution = cfg.resolution ∧
    (Camera.config_mut tan rotv self cfg).2.rotation = cfg.rotation ∧
    (Camera.config_mut tan rotv self cfg).2.fov = fov_abs cfg.fov ∧
    (Camera.config_mut tan rotv self cfg).2.focus_mode = self.focus_mode ∧
    (Camera.config_mut tan rotv self cfg).2.distance_to_plane = self.distance_to_plane ∧
    (Camera.config_mut tan rotv self cfg).2.first_pixel_pos = self.first_pixel_pos ∧
    (Camera.config_mut tan rotv self cfg).2.pixel_width = self.pixel_width ∧
    (Camera.config_mut tan rotv self cfg).2.pixel_height = self.pixel_height := by
  simp only [Camera.config_mut]
  rw [if_neg h1, if_neg h2, hf]
  dsimp only
  rcases hba with h3 | h4
  · rw [if_pos h3]
    exact ⟨rfl, rfl, rfl, rfl, rfl, rfl, rfl, rfl, rfl, rfl⟩
  · by_cases h3 : fd < 0
    · rw [if_pos h3]
      exact ⟨rfl, rfl, rfl, rfl, rfl, rfl, rfl, rfl, rfl, rfl⟩
    · rw [if_neg h3, if_pos h4]
      exact ⟨rfl, rfl, rfl, rfl, rfl, rfl, rfl, rfl, rfl, rfl⟩

/-- Claim C5 (amended): camera configuration fails exactly when the u32
product width·height wraps to zero modulo 2^32 (in particular when width
or height is 0, but also at wrap-around such as 65536·65536), or the
field-of-view angle is 0 or its absolute value exceeds the f64 constant
PI (negative angles are abs-folded into range and exactly PI is
accepted), or a FocalPlane focal distance or aperture is negative, and
succeeds otherwise; in-place reconfiguration returns Ok exactly when
fresh construction does and produces the same camera on success.  The
original "no derived camera state on error" guarantee holds only for
the resolution and FOV failures, which return before any field is
written; a focal-distance or aperture failure leaves the camera
partially mutated — position, basis, fov, resolution and rotation
already overwritten while focus mode, distance-to-plane, pixel sizes
and first-pixel position keep their previous values — so only the
fresh-construction path (`Camera::new`, which panics on `Err`) lets no
camera state escape an error. -/
theorem camera_config_error_iff (tan : ℚ → ℚ) (rotv : Vec3 → ℚ → Vec3 → Vec3)
    (cfg : CameraConfig) (self : Camera) :
    (Camera.config tan rotv cfg = none ↔ config_rejects cfg) ∧
    (Camera.config_mut tan rotv self cfg).1 = (Camera.config tan rotv cfg).isSome ∧
    (∀ cam, Camera.config tan rotv cfg = some cam →
      (Camera.config_mut tan rotv self cfg).2 = cam) ∧
    (cfg.resolution.1 * cfg.resolution.2 % 2 ^ 32 = 0 ∨
        |fov_angle cfg.fov| ≤ 0 ∨ pi64 < |fov_angle cfg.fov| →
      (Camera.config_mut tan rotv self cfg).2 = self) ∧
    (∀ fd ap, cfg.focus_mode = FocusMode.FocalPlane fd ap →
      ¬ cfg.resolution.1 * cfg.resolution.2 % 2 ^ 32 = 0 →
      ¬ (|fov_angle cfg.fov| ≤ 0 ∨ pi64 < |fov_angle cfg.fov|) →
      fd < 0 ∨ ap < 0 →
      (Camera.config_mut tan rotv self cfg).1 = false ∧
      (Camera.config_mut tan rotv self cfg).2.origin = cfg.position ∧
      (Camera.config_mut tan rotv self cfg).2.resolution = cfg.resolution ∧
      (Camera.config_mut tan rotv self cfg).2.rotation = cfg.rotation ∧
      (Camera.config_mut tan rotv self cfg).2.fov = fov_abs cfg.fov ∧
      (Camera.config_mut tan rotv self cfg).2.focus_mode = self.focus_mode ∧
      (Camera.config_mut tan rotv self cfg).2.distance_to_plane = self.distance_to_plane ∧
      (Camera.config_mut tan rotv self cfg).2.first_pixel_pos = self.first_pixel_pos ∧
      (Camera.config_mut tan rotv self cfg).2.pixel_width = self.pixel_width ∧
      (Camera.config_mut tan rotv self cfg).2.pixel_height = self.pixel_height) :=
  ⟨camera_config_none_iff tan rotv cfg,
   (camera_config_mut_agrees tan rotv self cfg).1,
   (camera_config_mut_agrees tan rotv self cfg).2,
   fun h => (camera_config_mut_early tan rotv self cfg h).2,
   fun fd ap hf h1 h2 hba => camera_config_mut_late tan rotv self cfg fd ap hf h1 h2 hba⟩

/-- Witness for the amended C5: the partial-mutation conjunct at the
concrete previously-configured camera `cam9` and the negative-aperture
configuration `cfg5d`, every hypothesis discharged by evaluation. -/
theorem camera_config_error_iff_witness :
    (Camera.config_mut tan0 rotv0 cam9 cfg5d).1 = false ∧
    (Camera.config_mut tan0 rotv0 cam9 cfg5d).2.origin = cfg5d.position ∧
    (Camera.config_mut tan0 rotv0 cam9 cfg5d).2.resolution = cfg5d.resolution ∧
    (Camera.config_mut tan0 rotv0 cam9 cfg5d).2.rotation = cfg5d.rotation ∧
    (Camera.config_mut tan0 rotv0 cam9 cfg5d).2.fov = fov_abs cfg5d.fov ∧
    (Camera.config_mut tan0 rotv0 cam9 cfg5d).2.focus_mode = cam9.focus_mode ∧
    (Camera.config_mut tan0 rotv0 cam9 cfg5d).2.distance_to_plane = cam9.distance_to_plane ∧
    (Camera.config_mut tan0 rotv0 cam9 cfg5d).2.first_pixel_pos = cam9.first_pixel_pos ∧
    (Camera.config_mut tan0 rotv0 cam9 cfg5d).2.pixel_width = cam9.pixel_width ∧
    (Camera.config_mut tan0 rotv0 cam9 cfg5d).2.pixel_height = cam9.pixel_height :=
  (camera_config_error_iff tan0 rotv0 cfg5d cam9).2.2.2.2 1 (-1) (by decide)
    (by decide) (by decide) (Or.inr (by decide))
